import Mathlib

/-
  Verification of the devices_service repository core
  (src/services/deviceService.ts).

  The development shallowly embeds the device service:
  - the MAC-address sanitizer and topic derivation used by sendDeviceCommand;
  - the sendDeviceCommand request/response correlator as an explicit event
    machine (subscribe/publish callbacks, message delivery, timer firing),
    with one CallState per concurrent call and instrumentation counters for
    cleanup, unsubscribe and clearTimeout;
  - the in-memory heartbeat store, the analyzeMetrics risk analyzer and the
    monitorDeviceHeartbeats staleness sweep, with database effects reified
    as a list of DBOp values and storage failures injected by an oracle.

  JavaScript objects keyed by device id are embedded as association lists
  over String keys; JavaScript numbers that the claims compare against
  integer thresholds are embedded as Int.
-/

set_option autoImplicit false

/-- Lookup in an association list keyed by strings; embeds a JavaScript
object property read, where a missing property yields undefined (none). -/
def lookupS {α : Type} : List (String × α) → String → Option α
  | [], _ => none
  | (k, v) :: rest, key => if k = key then some v else lookupS rest key

/-- Overwrite-or-append insertion; embeds a JavaScript object property
assignment, which replaces the value of an existing key in place. -/
def insertS {α : Type} : List (String × α) → String → α → List (String × α)
  | [], key, v => [(key, v)]
  | (k, w) :: rest, key, v =>
    if k = key then (key, v) :: rest else (k, w) :: insertS rest key v

/-- Key removal; embeds the JavaScript delete operator on an object key. -/
def eraseS {α : Type} : List (String × α) → String → List (String × α)
  | [], _ => []
  | (k, w) :: rest, key =>
    if k = key then eraseS rest key else (k, w) :: eraseS rest key

/-- Separator class of the regular expression used at deviceService.ts:159,
matching the colon and dash characters. -/
def isSeparator (c : Char) : Bool := c == ':' || c == '-'

/-- Global regex replacement with the empty string: every separator
occurrence is dropped, all other characters are kept in order. -/
def removeSeparators : List Char → List Char
  | [] => []
  | c :: cs => if isSeparator c then removeSeparators cs else c :: removeSeparators cs

/-- JavaScript toUpperCase on the ASCII identifiers this service handles:
each character is upper-cased independently. -/
def jsToUpperCase : List Char → List Char
  | [] => []
  | c :: cs => c.toUpper :: jsToUpperCase cs

/-- Embeds deviceService.ts:159: macAddress.replace(regex, empty).toUpperCase(). -/
def sanitizeMac (macAddress : String) : String :=
  String.mk (jsToUpperCase (removeSeparators macAddress.data))

/-- Request topic template of deviceService.ts:160. -/
def requestTopicOf (macAddress : String) : String :=
  "device" ++ sanitizeMac macAddress ++ "/request"

/-- Response topic template of deviceService.ts:161. -/
def responseTopicOf (macAddress : String) : String :=
  "device" ++ sanitizeMac macAddress ++ "/response"

/-- Normalization as the specification words it: remove every colon and dash
character and upper-case the rest. Stated for comparison with sanitizeMac. -/
def specNormalizeChars (s : String) : List Char :=
  (s.data.filter (fun c => !(c == ':' || c == '-'))).map Char.toUpper

theorem removeSeparators_eq_filter (l : List Char) :
    removeSeparators l = l.filter (fun c => !isSeparator c) := by
  induction l with
  | nil => rfl
  | cons c cs ih =>
    by_cases h : isSeparator c <;>
      simp [removeSeparators, List.filter, h, ih]

theorem jsToUpperCase_eq_map (l : List Char) :
    jsToUpperCase l = l.map Char.toUpper := by
  induction l with
  | nil => rfl
  | cons c cs ih => simp [jsToUpperCase, ih]

-- Heartbeat data model (deviceService.ts:8-20), metrics kept nested.

structure Metrics where
  cpu_percent : Int
  ram_used : Int
  ram_total : Int
  ram_percent : Int
  temperature : Int
  deriving Repr, DecidableEq

structure HeartbeatData where
  status : String
  metrics : Metrics
  timestamp : Int
  device_id : String
  online : Bool
  deriving Repr, DecidableEq

/-- Risky-device registry entry (deviceService.ts:33-38). -/
structure RiskEntry where
  timestamp : Int
  reason : String
  deriving Repr, DecidableEq

def THRESHOLDS_temperature : Int := 70

def THRESHOLDS_cpu_percent : Int := 95

def THRESHOLDS_ram_percent : Int := 90

/-- Five minutes in milliseconds (deviceService.ts:54). -/
def HEARTBEAT_TIMEOUT : Int := 5 * 60 * 1000

/-- Embeds analyzeMetrics (deviceService.ts:100-141). The Date.now() value
used for the registry entry timestamp is passed in as now. The pair state
threads the isRisky flag and the riskReason string exactly as the three
sequential if statements of the source do; the riskReason-or-else update
embeds the JavaScript or operator on strings, where the empty string is
falsy. -/
def analyzeMetrics (riskyDevices : List (String × RiskEntry)) (deviceId : String)
    (heartbeatData : HeartbeatData) (now : Int) : List (String × RiskEntry) :=
  if heartbeatData.status = "Defectueux" then riskyDevices
  else
    let metrics := heartbeatData.metrics
    let st0 : Bool × String := (false, "")
    let st1 :=
      if metrics.temperature ≥ THRESHOLDS_temperature then
        (true, "High temperature: " ++ toString metrics.temperature ++ "°C")
      else st0
    let st2 :=
      if metrics.cpu_percent ≥ THRESHOLDS_cpu_percent then
        (true, if st1.2 = "" then "High CPU usage: " ++ toString metrics.cpu_percent ++ "%" else st1.2)
      else st1
    let st3 :=
      if metrics.ram_percent ≥ THRESHOLDS_ram_percent then
        (true, if st2.2 = "" then "High RAM usage: " ++ toString metrics.ram_percent ++ "%" else st2.2)
      else st2
    if st3.1 then insertS riskyDevices deviceId { timestamp := now, reason := st3.2 }
    else eraseS riskyDevices deviceId

/-- Embeds handleHeartbeatMessage (deviceService.ts:65-80): the incoming
sample fully replaces the stored one; the risk analysis call is commented
out in the source, so storage has no other effect. -/
def handleHeartbeatMessage (store : List (String × HeartbeatData))
    (deviceId : String) (heartbeatData : HeartbeatData) : List (String × HeartbeatData) :=
  insertS store deviceId heartbeatData

/-- Embeds getLastHeartbeatData (deviceService.ts:355-359): property read at
the decimal rendering of the numeric id, with null for a missing entry. -/
def getLastHeartbeatData (store : List (String × HeartbeatData))
    (deviceId : Int) : Option HeartbeatData :=
  lookupS store (toString deviceId)

/-- Most recently stored sample for a key in a message sequence, as the
specification words it: later messages take precedence. -/
def lastValueFor : List (String × HeartbeatData) → String → Option HeartbeatData
  | [], _ => none
  | m :: rest, key =>
    match lastValueFor rest key with
    | some v => some v
    | none => if m.1 = key then some m.2 else none

-- Correlator machine for sendDeviceCommand (deviceService.ts:153-232).

/-- Payload of a delivered MQTT message: either its body parses as JSON
(the parsed value is abstracted to the string body) or JSON.parse throws. -/
inductive Payload where
  | parseable (body : String)
  | malformed (raw : String)
  deriving Repr, DecidableEq

/-- Value a call resolves with: either the parsed response body, or one of
the error objects of the source, identified by their message string. -/
inductive Resolved where
  | ok (body : String)
  | err (message : String)
  deriving Repr, DecidableEq

/-- Per-call state of one sendDeviceCommand invocation: the closure
variables of the source (isHandled, the armed timer, whether the message
listener is registered) plus instrumentation counting cleanup runs,
unsubscribe calls and clearTimeout calls, the sticky promise value, and a
flag recording that an exception escaped the message handler. -/
structure CallState where
  requestTopic : String
  responseTopic : String
  isHandled : Bool
  resolvedWith : Option Resolved
  listenerRegistered : Bool
  timerArmed : Bool
  cleanupCount : Nat
  unsubscribeCount : Nat
  clearTimeoutCount : Nat
  threw : Bool
  deriving Repr, DecidableEq

/-- World state: the registered calls in listener-registration order, and
the topics published to (the publish at deviceService.ts:202 is issued
unconditionally when the call starts; its payload body is not inspected by
any claim and is abstracted away). -/
structure World where
  calls : List CallState
  published : List String
  deriving Repr, DecidableEq

def emptyWorld : World := { calls := [], published := [] }

/-- Synchronous part of the Promise executor (deviceService.ts:158-230):
derive topics, issue the subscribe and the publish, register the message
listener, arm the 5000 ms timer. -/
def startCall (w : World) (macAddress : String) : World :=
  { calls := w.calls ++ [{
      requestTopic := requestTopicOf macAddress
      responseTopic := responseTopicOf macAddress
      isHandled := false
      resolvedWith := none
      listenerRegistered := true
      timerArmed := true
      cleanupCount := 0
      unsubscribeCount := 0
      clearTimeoutCount := 0
      threw := false }],
    published := w.published ++ [requestTopicOf macAddress] }

/-- Promise resolution is sticky: only the first resolve sets the value. -/
def resolveCall (c : CallState) (r : Resolved) : CallState :=
  match c.resolvedWith with
  | some _ => c
  | none => { c with resolvedWith := some r }

/-- Embeds cleanup (deviceService.ts:167-176): remove the per-call message
listener and issue an unsubscribe for the response topic. The timer is not
touched here. -/
def cleanupCall (c : CallState) : CallState :=
  { c with
      listenerRegistered := false
      cleanupCount := c.cleanupCount + 1
      unsubscribeCount := c.unsubscribeCount + 1 }

/-- Embeds the subscribe callback (deviceService.ts:189-200); the error
branch does not consult isHandled. -/
def subscribeCb (c : CallState) (err : Option String) : CallState :=
  match err with
  | none => c
  | some e => resolveCall (cleanupCall { c with isHandled := true })
      (Resolved.err ("Subscription failed: " ++ e))

/-- Embeds the publish callback (deviceService.ts:202-216); the error
branch does not consult isHandled. -/
def publishCb (c : CallState) (err : Option String) : CallState :=
  match err with
  | none => c
  | some e => resolveCall (cleanupCall { c with isHandled := true })
      (Resolved.err ("Publish failed: " ++ e))

/-- Embeds the setTimeout callback (deviceService.ts:220-230); it runs only
when the timer is still armed, and resolves only when the call is not yet
handled. -/
def timerCb (c : CallState) : CallState :=
  if c.timerArmed then
    let c1 := { c with timerArmed := false }
    if c1.isHandled then c1
    else resolveCall (cleanupCall { c1 with isHandled := true })
      (Resolved.err ("ODB is not activated or not responding"))
  else c

/-- Embeds messageHandler (deviceService.ts:178-187). On a matching topic
for an unhandled call: mark handled, clear the timer, then JSON.parse the
body. A parseable body leads to cleanup and resolution; a malformed body
makes JSON.parse throw before cleanup and resolve are reached, which the
Bool component reports as an exception escaping the handler. -/
def messageHandlerCall (c : CallState) (topic : String) (p : Payload) : CallState × Bool :=
  if topic = c.responseTopic ∧ ¬c.isHandled then
    let c1 := { c with
      isHandled := true
      clearTimeoutCount := c.clearTimeoutCount + 1
      timerArmed := false }
    match p with
    | Payload.parseable body => (resolveCall (cleanupCall c1) (Resolved.ok body), false)
    | Payload.malformed _ => ({ c1 with threw := true }, true)
  else (c, false)

/-- Emission of one message event to the listener list snapshot, in
registration order; an exception thrown by a handler aborts the emission,
leaving later listeners uninvoked. -/
def deliverCalls : List CallState → String → Payload → List CallState
  | [], _, _ => []
  | c :: rest, topic, p =>
    if c.listenerRegistered then
      match messageHandlerCall c topic p with
      | (c1, true) => c1 :: rest
      | (c1, false) => c1 :: deliverCalls rest topic p
    else c :: deliverCalls rest topic p

/-- Update the call at an index, leaving other calls unchanged. -/
def updateAt : List CallState → Nat → (CallState → CallState) → List CallState
  | [], _, _ => []
  | c :: rest, 0, f => f c :: rest
  | c :: rest, Nat.succ n, f => c :: updateAt rest n f

/-- Asynchronous events of the JavaScript runtime acting on the machine. -/
inductive Event where
  | subscribeResult (callId : Nat) (err : Option String)
  | publishResult (callId : Nat) (err : Option String)
  | deliver (topic : String) (payload : Payload)
  | timerFire (callId : Nat)
  deriving Repr, DecidableEq

def step (w : World) (e : Event) : World :=
  match e with
  | Event.subscribeResult i err => { w with calls := updateAt w.calls i (fun c => subscribeCb c err) }
  | Event.publishResult i err => { w with calls := updateAt w.calls i (fun c => publishCb c err) }
  | Event.deliver t p => { w with calls := deliverCalls w.calls t p }
  | Event.timerFire i => { w with calls := updateAt w.calls i timerCb }

def run (w : World) (es : List Event) : World := es.foldl step w

def resolvedOf (w : World) (i : Nat) : Option Resolved :=
  (w.calls.get? i).bind (fun c => c.resolvedWith)

-- Shared association-list lemmas.

theorem lookupS_insertS {α : Type} (l : List (String × α)) (k key : String) (v : α) :
    lookupS (insertS l k v) key = if k = key then some v else lookupS l key := by
  induction l with
  | nil => simp [insertS, lookupS]
  | cons p rest ih =>
    obtain ⟨k1, v1⟩ := p
    by_cases h : k1 = k
    · subst h
      by_cases hk : k1 = key <;> simp [insertS, lookupS, hk]
    · by_cases hk : k1 = key
      · subst hk
        have h2 : ¬k = k1 := fun hkk => h hkk.symm
        simp [insertS, lookupS, h, h2]
      · simp [insertS, lookupS, h, hk, ih]

theorem lookupS_eraseS_self {α : Type} (l : List (String × α)) (key : String) :
    lookupS (eraseS l key) key = none := by
  induction l with
  | nil => rfl
  | cons p rest ih =>
    obtain ⟨k1, v1⟩ := p
    by_cases h : k1 = key <;> simp [eraseS, lookupS, h, ih]

theorem lookupS_eraseS_other {α : Type} (l : List (String × α)) (k key : String)
    (h : k ≠ key) : lookupS (eraseS l k) key = lookupS l key := by
  induction l with
  | nil => rfl
  | cons p rest ih =>
    obtain ⟨k1, v1⟩ := p
    by_cases h1 : k1 = k
    · subst h1
      simp [eraseS, lookupS, h, ih]
    · by_cases hk : k1 = key
      · subst hk
        simp [eraseS, lookupS, h1]
      · simp [eraseS, lookupS, h1, hk, ih]

theorem string_append_ne_empty (a b : String) (h : a.data ≠ []) : a ++ b ≠ "" := by
  intro hc
  apply h
  have hd := congrArg String.data hc
  rw [String.data_append] at hd
  simpa using (List.append_eq_nil.mp hd).1

/-- Claim C9: for every raw identifier, normalization removes every colon
and dash character and upper-cases the rest, so the colon-separated and
dash-separated forms of the reference address both normalize to
AABBCCDDEEFF, and the derived topics are exactly the string device, the
normalized identifier, and the /request respectively /response suffix. -/
theorem sendDeviceCommand_topicNaming (s : String) :
    (sanitizeMac s).data = specNormalizeChars s
    ∧ sanitizeMac "AA:BB:CC:DD:EE:FF" = "AABBCCDDEEFF"
    ∧ sanitizeMac "AA-BB-CC-DD-EE-FF" = "AABBCCDDEEFF"
    ∧ requestTopicOf s = "device" ++ sanitizeMac s ++ "/request"
    ∧ responseTopicOf s = "device" ++ sanitizeMac s ++ "/response" := by
  refine ⟨?_, by decide, by decide, rfl, rfl⟩
  simp [sanitizeMac, specNormalizeChars, removeSeparators_eq_filter,
    jsToUpperCase_eq_map, isSeparator]

theorem lookupS_fold_insert (msgs : List (String × HeartbeatData))
    (st : List (String × HeartbeatData)) (key : String) :
    lookupS (msgs.foldl (fun acc m => handleHeartbeatMessage acc m.1 m.2) st) key
      = match lastValueFor msgs key with
        | some v => some v
        | none => lookupS st key := by
  induction msgs generalizing st with
  | nil => simp [lastValueFor]
  | cons m rest ih =>
    simp only [List.foldl_cons]
    rw [ih]
    rcases h : lastValueFor rest key with _ | v
    · by_cases hk : m.1 = key <;>
        simp [lastValueFor, h, hk, handleHeartbeatMessage, lookupS_insertS]
    · simp [lastValueFor, h]

theorem lastValueFor_eq_none_iff (msgs : List (String × HeartbeatData)) (key : String) :
    lastValueFor msgs key = none ↔ ∀ m ∈ msgs, m.1 ≠ key := by
  induction msgs with
  | nil => simp [lastValueFor]
  | cons m rest ih =>
    rcases h : lastValueFor rest key with _ | v
    · rw [h] at ih
      have hrest : ∀ m2 ∈ rest, m2.1 ≠ key := ih.mp rfl
      by_cases hk : m.1 = key
      · simp [lastValueFor, h, hk]
      · simp only [lastValueFor, h]
        simp [hk]
        exact fun a b hab => hrest (a, b) hab
    · rw [h] at ih
      have hnot : ¬∀ m2 ∈ rest, m2.1 ≠ key := fun hr => by simpa using ih.mpr hr
      simp only [lastValueFor, h]
      constructor
      · intro hc; exact absurd hc (by simp)
      · intro hall
        exact absurd (fun m2 hm2 => hall m2 (List.mem_cons_of_mem m hm2)) hnot

/-- Claim C10: for every device identifier, getLastHeartbeatData applied to
the store produced by any sequence of handleHeartbeatMessage calls returns
none exactly when no message in the sequence carried that identifier, and
otherwise returns the most recently stored sample for it. -/
theorem getLastHeartbeatData_lastWriteWins (msgs : List (String × HeartbeatData))
    (deviceId : Int) :
    getLastHeartbeatData
        (msgs.foldl (fun st m => handleHeartbeatMessage st m.1 m.2) []) deviceId
      = lastValueFor msgs (toString deviceId)
    ∧ (lastValueFor msgs (toString deviceId) = none ↔
        ∀ m ∈ msgs, m.1 ≠ toString deviceId) := by
  constructor
  · rw [getLastHeartbeatData, lookupS_fold_insert]
    rcases lastValueFor msgs (toString deviceId) with _ | v <;> simp [lookupS]
  · exact lastValueFor_eq_none_iff msgs (toString deviceId)

theorem prefixed_ne_empty (a b c : String) (h : a.data ≠ []) : a ++ b ++ c ≠ "" := by
  apply string_append_ne_empty
  rw [String.data_append]
  intro hc2
  exact h (List.append_eq_nil.mp hc2).1

/-- Counterexample to claim C8 as stated: a sample whose reported status is
the English word defective is not skipped, because the source compares the
status against the French word Defectueux (deviceService.ts:104). With
status defective and temperature 75 the device is marked risky instead of
the evaluation being skipped. -/
theorem analyzeMetrics_defectiveEnglishNotSkipped_cex :
    analyzeMetrics [] "d1"
      { status := "defective"
        metrics := { cpu_percent := 10, ram_used := 0, ram_total := 0,
                     ram_percent := 10, temperature := 75 }
        timestamp := 0, device_id := "d1", online := true } 42
      = [("d1", { timestamp := 42, reason := "High temperature: 75°C" })] := by
  decide

/-- Claim C8 amended: risk evaluation is skipped only when the reported
status equals the French word Defectueux, not the English word defective.
For every non-skipped sample, the device is marked risky if and only if
temperature is at least 70 or cpu percent is at least 95 or ram percent is
at least 90; the recorded reason reflects the first breached threshold in
the order temperature, then CPU, then RAM; and a sample within all bounds
removes a previously recorded verdict. -/
theorem analyzeMetrics_riskEvaluation (risky : List (String × RiskEntry))
    (deviceId : String) (hb : HeartbeatData) (now : Int)
    (hskip : hb.status ≠ "Defectueux") :
    ((∃ e, lookupS (analyzeMetrics risky deviceId hb now) deviceId = some e) ↔
      (hb.metrics.temperature ≥ 70 ∨ hb.metrics.cpu_percent ≥ 95 ∨
        hb.metrics.ram_percent ≥ 90))
    ∧ (hb.metrics.temperature ≥ 70 →
        lookupS (analyzeMetrics risky deviceId hb now) deviceId
          = some { timestamp := now,
                   reason := "High temperature: " ++ toString hb.metrics.temperature ++ "°C" })
    ∧ (hb.metrics.temperature < 70 → hb.metrics.cpu_percent ≥ 95 →
        lookupS (analyzeMetrics risky deviceId hb now) deviceId
          = some { timestamp := now,
                   reason := "High CPU usage: " ++ toString hb.metrics.cpu_percent ++ "%" })
    ∧ (hb.metrics.temperature < 70 → hb.metrics.cpu_percent < 95 →
        hb.metrics.ram_percent ≥ 90 →
        lookupS (analyzeMetrics risky deviceId hb now) deviceId
          = some { timestamp := now,
                   reason := "High RAM usage: " ++ toString hb.metrics.ram_percent ++ "%" })
    ∧ (hb.metrics.temperature < 70 → hb.metrics.cpu_percent < 95 →
        hb.metrics.ram_percent < 90 →
        lookupS (analyzeMetrics risky deviceId hb now) deviceId = none) := by
  have hne1 : ¬("High temperature: " ++ toString hb.metrics.temperature ++ "°C" = "") :=
    prefixed_ne_empty _ _ _ (by decide)
  have hne2 : ¬("High CPU usage: " ++ toString hb.metrics.cpu_percent ++ "%" = "") :=
    prefixed_ne_empty _ _ _ (by decide)
  by_cases ht : hb.metrics.temperature ≥ 70
  · have ht2 : ¬hb.metrics.temperature < 70 := not_lt.mpr ht
    refine ⟨?_, ?_, ?_, ?_, ?_⟩ <;>
      simp [analyzeMetrics, hskip, ht, ht2, hne1, THRESHOLDS_temperature,
        THRESHOLDS_cpu_percent, THRESHOLDS_ram_percent, lookupS_insertS]
  · have ht2 : hb.metrics.temperature < 70 := lt_of_not_ge ht
    by_cases hc : hb.metrics.cpu_percent ≥ 95
    · have hc2 : ¬hb.metrics.cpu_percent < 95 := not_lt.mpr hc
      refine ⟨?_, ?_, ?_, ?_, ?_⟩ <;>
        simp [analyzeMetrics, hskip, ht, ht2, hc, hc2, hne2, THRESHOLDS_temperature,
          THRESHOLDS_cpu_percent, THRESHOLDS_ram_percent, lookupS_insertS]
    · have hc2 : hb.metrics.cpu_percent < 95 := lt_of_not_ge hc
      by_cases hr : hb.metrics.ram_percent ≥ 90
      · refine ⟨?_, ?_, ?_, ?_, ?_⟩ <;>
          simp [analyzeMetrics, hskip, ht, hc, hr, THRESHOLDS_temperature,
            THRESHOLDS_cpu_percent, THRESHOLDS_ram_percent, lookupS_insertS]
      · have hr2 : hb.metrics.ram_percent < 90 := lt_of_not_ge hr
        refine ⟨?_, ?_, ?_, ?_, ?_⟩ <;>
          simp [analyzeMetrics, hskip, ht, hc, hr, THRESHOLDS_temperature,
            THRESHOLDS_cpu_percent, THRESHOLDS_ram_percent, lookupS_eraseS_self]

/-- Witness for the amended claim C8 at a concrete sample: status Actif is
not the skip status, temperature 75 breaches the first threshold, and the
recorded verdict carries the temperature reason. -/
theorem analyzeMetrics_riskEvaluation_witness :
    (("Actif" : String) ≠ "Defectueux")
    ∧ lookupS
        (analyzeMetrics [] "dev1"
          { status := "Actif"
            metrics := { cpu_percent := 10, ram_used := 0, ram_total := 0,
                         ram_percent := 10, temperature := 75 }
            timestamp := 0, device_id := "dev1", online := true } 5) "dev1"
      = some { timestamp := 5, reason := "High temperature: 75°C" } := by
  refine ⟨by decide, ?_⟩
  have h := analyzeMetrics_riskEvaluation []
    "dev1"
    { status := "Actif"
      metrics := { cpu_percent := 10, ram_used := 0, ram_total := 0,
                   ram_percent := 10, temperature := 75 }
      timestamp := 0, device_id := "dev1", online := true } 5 (by decide)
  have h2 := h.2.1 (by decide)
  simpa using h2

-- Heartbeat staleness monitor (deviceService.ts:320-348, 368-466).

/-- JavaScript Number conversion restricted to the identifiers this service
produces: a string of decimal digits denotes its value (the empty string
denotes zero, as in JavaScript), any other string is NaN, embedded as none.
Device ids recorded by this service are decimal renderings of numeric ids,
so the digit fragment of the conversion is the one exercised. -/
def jsNumberOfString (s : String) : Option Int :=
  if s.data.all Char.isDigit then
    some (Int.ofNat (s.data.foldl (fun acc c => acc * 10 + (c.toNat - 48)) 0))
  else none

/-- JavaScript toString on a number, with NaN rendered as the string NaN. -/
def jsNumberToString (n : Option Int) : String :=
  match n with
  | some v => toString v
  | none => "NaN"

/-- Database and transport effects the monitor issues, reified. -/
inductive DBOp where
  | sendCmd (macAddress : String) (command : String)
  | setStatus (deviceId : Option Int) (status : String)
  | intervention (itype : String) (deviceId : Option Int) (maintainerId : Int)
      (priority : String) (isRemote : Bool)
  deriving Repr, DecidableEq

/-- Embeds setDeviceDefective (deviceService.ts:433-447): notify the device,
set status defective, then create a curative non-remote intervention with
maintainer 1 and priority 1 (the source comments the value 1 as high). When
the status update throws, the await chain stops and the intervention is not
created; statusUpdateFails injects that storage failure. -/
def setDeviceDefective (deviceId : Option Int) (statusUpdateFails : Bool) : List DBOp :=
  DBOp.sendCmd (jsNumberToString deviceId) "set_defective" ::
  DBOp.setStatus deviceId "defective" ::
  (if statusUpdateFails then [] else [DBOp.intervention "curative" deviceId 1 "1" false])

/-- Embeds setDeviceOutOfService (deviceService.ts:453-466): set status
broken_down, then create a curative remote intervention with maintainer 1
and priority 1. -/
def setDeviceOutOfService (deviceId : Option Int) (statusUpdateFails : Bool) : List DBOp :=
  DBOp.setStatus deviceId "broken_down" ::
  (if statusUpdateFails then [] else [DBOp.intervention "curative" deviceId 1 "1" true])

structure SweepResult where
  store : List (String × HeartbeatData)
  risky : List (String × RiskEntry)
  ops : List DBOp
  deriving Repr, DecidableEq

/-- Embeds monitorDeviceHeartbeats (deviceService.ts:320-348): for every
stored sample, when now minus the sample timestamp converted to
milliseconds exceeds HEARTBEAT_TIMEOUT, escalate through
setDeviceDefective when a risk entry exists and through
setDeviceOutOfService otherwise, then delete the sample and the risk
entry. The deletions are unconditional: the escalation functions are
invoked without await, so a storage failure inside them cannot prevent
the deletes. -/
def monitorDeviceHeartbeats :
    List (String × HeartbeatData) → List (String × RiskEntry) → Int →
    (String → Bool) → SweepResult
  | [], risky, _, _ => { store := [], risky := risky, ops := [] }
  | (deviceId, heartbeatData) :: rest, risky, now, statusFails =>
    let lastHeartbeatTime := heartbeatData.timestamp * 1000
    if now - lastHeartbeatTime > HEARTBEAT_TIMEOUT then
      let ops :=
        match lookupS risky deviceId with
        | some _ => setDeviceDefective (jsNumberOfString deviceId) (statusFails deviceId)
        | none => setDeviceOutOfService (jsNumberOfString deviceId) (statusFails deviceId)
      let r := monitorDeviceHeartbeats rest (eraseS risky deviceId) now statusFails
      { store := r.store, risky := r.risky, ops := ops ++ r.ops }
    else
      let r := monitorDeviceHeartbeats rest risky now statusFails
      { store := (deviceId, heartbeatData) :: r.store, risky := r.risky, ops := r.ops }

/-- Number of intervention records created for a given numeric device id. -/
def countInterventionsFor : List DBOp → Option Int → Nat
  | [], _ => 0
  | op :: rest, did =>
    (match op with
     | DBOp.intervention _ d _ _ _ => if d = did then 1 else 0
     | _ => 0) + countInterventionsFor rest did

theorem lookupS_eq_none_of_not_mem {α : Type} (l : List (String × α)) (key : String)
    (h : key ∉ l.map Prod.fst) : lookupS l key = none := by
  induction l with
  | nil => rfl
  | cons p rest ih =>
    obtain ⟨k1, v1⟩ := p
    simp only [List.map_cons, List.mem_cons] at h
    push_neg at h
    have hk : ¬(k1 = key) := fun hc => h.1 hc.symm
    simp [lookupS, hk, ih h.2]

theorem countInterventionsFor_append (a b : List DBOp) (did : Option Int) :
    countInterventionsFor (a ++ b) did
      = countInterventionsFor a did + countInterventionsFor b did := by
  induction a with
  | nil => simp [countInterventionsFor]
  | cons op rest ih => simp [countInterventionsFor, ih, Nat.add_assoc]

theorem countInterventionsFor_defective_ne (d did : Option Int) (f : Bool)
    (h : d ≠ did) : countInterventionsFor (setDeviceDefective d f) did = 0 := by
  cases f <;> simp [setDeviceDefective, countInterventionsFor, h]

theorem countInterventionsFor_outOfService_ne (d did : Option Int) (f : Bool)
    (h : d ≠ did) : countInterventionsFor (setDeviceOutOfService d f) did = 0 := by
  cases f <;> simp [setDeviceOutOfService, countInterventionsFor, h]

theorem countInterventionsFor_defective_self (d : Option Int) :
    countInterventionsFor (setDeviceDefective d false) d = 1 := by
  simp [setDeviceDefective, countInterventionsFor]

theorem countInterventionsFor_outOfService_self (d : Option Int) :
    countInterventionsFor (setDeviceOutOfService d false) d = 1 := by
  simp [setDeviceOutOfService, countInterventionsFor]

theorem monitor_store_none (st : List (String × HeartbeatData))
    (risky : List (String × RiskEntry)) (now : Int) (fail : String → Bool)
    (key : String) (h : lookupS st key = none) :
    lookupS (monitorDeviceHeartbeats st risky now fail).store key = none := by
  induction st generalizing risky with
  | nil => simpa [monitorDeviceHeartbeats] using h
  | cons p rest ih =>
    obtain ⟨id, hb⟩ := p
    have hid : ¬(id = key) := by
      intro hc
      rw [lookupS, if_pos hc] at h
      exact Option.noConfusion h
    rw [lookupS, if_neg hid] at h
    by_cases hs : now - hb.timestamp * 1000 > HEARTBEAT_TIMEOUT
    · simp only [monitorDeviceHeartbeats, hs, if_true, if_pos hs]
      exact ih _ h
    · simp [monitorDeviceHeartbeats, hs, lookupS, hid]
      exact ih _ h

theorem monitor_risky_none (st : List (String × HeartbeatData))
    (risky : List (String × RiskEntry)) (now : Int) (fail : String → Bool)
    (key : String) (h : lookupS risky key = none) :
    lookupS (monitorDeviceHeartbeats st risky now fail).risky key = none := by
  induction st generalizing risky with
  | nil => simpa [monitorDeviceHeartbeats] using h
  | cons p rest ih =>
    obtain ⟨id, hb⟩ := p
    by_cases hs : now - hb.timestamp * 1000 > HEARTBEAT_TIMEOUT
    · simp only [monitorDeviceHeartbeats, hs, if_pos hs]
      apply ih
      by_cases hid : id = key
      · subst hid; exact lookupS_eraseS_self risky id
      · rw [lookupS_eraseS_other risky id key hid]; exact h
    · simp only [monitorDeviceHeartbeats, hs, if_neg hs]
      exact ih _ h

theorem monitor_ops_zero (st : List (String × HeartbeatData))
    (risky : List (String × RiskEntry)) (now : Int) (fail : String → Bool)
    (did : Option Int) (h : ∀ k ∈ st.map Prod.fst, jsNumberOfString k ≠ did) :
    countInterventionsFor (monitorDeviceHeartbeats st risky now fail).ops did = 0 := by
  induction st generalizing risky with
  | nil => simp [monitorDeviceHeartbeats, countInterventionsFor]
  | cons p rest ih =>
    obtain ⟨id, hb⟩ := p
    have hid : jsNumberOfString id ≠ did := h id (by simp)
    have hrest : ∀ k ∈ rest.map Prod.fst, jsNumberOfString k ≠ did :=
      fun k hk => h k (by simp [hk])
    by_cases hs : now - hb.timestamp * 1000 > HEARTBEAT_TIMEOUT
    · simp only [monitorDeviceHeartbeats, hs, if_pos hs]
      rcases hr : lookupS risky id with _ | e <;>
        simp [hr, countInterventionsFor_append, ih _ hrest,
          countInterventionsFor_defective_ne _ _ _ hid,
          countInterventionsFor_outOfService_ne _ _ _ hid]
    · simp only [monitorDeviceHeartbeats, hs, if_neg hs]
      exact ih _ hrest

/-- Claim C6: during a monitor sweep with all storage operations
succeeding, every stored device whose sample timestamp converted to
milliseconds is more than 300000 ms behind now is escalated: with a risk
verdict present it gets status defective plus exactly one curative,
non-remote, priority-1 intervention; without a verdict it gets status
broken_down plus exactly one curative, remote, priority-1 intervention;
and afterwards both its sample and its verdict are gone from memory. The
store keys are assumed distinct, as JavaScript object keys are, and
distinct keys are assumed to denote distinct numeric ids. -/
theorem monitorDeviceHeartbeats_staleEscalation
    (store : List (String × HeartbeatData)) (risky : List (String × RiskEntry))
    (now : Int) (id : String) (hb : HeartbeatData)
    (hnodup : (store.map Prod.fst).Nodup)
    (hinj : ∀ k ∈ store.map Prod.fst, k ≠ id →
      jsNumberOfString k ≠ jsNumberOfString id)
    (hlook : lookupS store id = some hb)
    (hstale : now - hb.timestamp * 1000 > HEARTBEAT_TIMEOUT) :
    lookupS (monitorDeviceHeartbeats store risky now (fun _ => false)).store id = none
    ∧ lookupS (monitorDeviceHeartbeats store risky now (fun _ => false)).risky id = none
    ∧ countInterventionsFor (monitorDeviceHeartbeats store risky now (fun _ => false)).ops
        (jsNumberOfString id) = 1
    ∧ ((∃ e, lookupS risky id = some e) →
        DBOp.setStatus (jsNumberOfString id) "defective"
          ∈ (monitorDeviceHeartbeats store risky now (fun _ => false)).ops
        ∧ DBOp.intervention "curative" (jsNumberOfString id) 1 "1" false
          ∈ (monitorDeviceHeartbeats store risky now (fun _ => false)).ops)
    ∧ (lookupS risky id = none →
        DBOp.setStatus (jsNumberOfString id) "broken_down"
          ∈ (monitorDeviceHeartbeats store risky now (fun _ => false)).ops
        ∧ DBOp.intervention "curative" (jsNumberOfString id) 1 "1" true
          ∈ (monitorDeviceHeartbeats store risky now (fun _ => false)).ops) := by
  induction store generalizing risky with
  | nil => simp [lookupS] at hlook
  | cons p rest ih =>
    obtain ⟨k0, h0⟩ := p
    simp only [List.map_cons, List.nodup_cons] at hnodup
    obtain ⟨hk0notin, hnodup2⟩ := hnodup
    by_cases hk : k0 = id
    · subst hk
      rw [lookupS, if_pos rfl] at hlook
      have hbeq : h0 = hb := by injection hlook
      subst hbeq
      have hrestnone : lookupS rest k0 = none :=
        lookupS_eq_none_of_not_mem rest k0 hk0notin
      have hrestops : ∀ k ∈ rest.map Prod.fst,
          jsNumberOfString k ≠ jsNumberOfString k0 := by
        intro k hkm
        refine hinj k (by simp [hkm]) ?_
        rintro rfl
        exact hk0notin hkm
      rcases hr : lookupS risky k0 with _ | e
      · simp only [monitorDeviceHeartbeats, hstale, if_true, hr, if_pos hstale]
        refine ⟨?_, ?_, ?_, ?_, ?_⟩
        · exact monitor_store_none _ _ _ _ _ hrestnone
        · exact monitor_risky_none _ _ _ _ _ (lookupS_eraseS_self risky k0)
        · simp [countInterventionsFor_append,
            countInterventionsFor_outOfService_self,
            monitor_ops_zero _ _ _ _ _ hrestops]
        · rintro ⟨e, he⟩
          exact Option.noConfusion he
        · intro _
          constructor <;> simp [setDeviceOutOfService, List.mem_append]
      · simp only [monitorDeviceHeartbeats, hstale, if_true, hr, if_pos hstale]
        refine ⟨?_, ?_, ?_, ?_, ?_⟩
        · exact monitor_store_none _ _ _ _ _ hrestnone
        · exact monitor_risky_none _ _ _ _ _ (lookupS_eraseS_self risky k0)
        · simp [countInterventionsFor_append,
            countInterventionsFor_defective_self,
            monitor_ops_zero _ _ _ _ _ hrestops]
        · intro _
          constructor <;> simp [setDeviceDefective, List.mem_append]
        · intro hnone
          exact Option.noConfusion hnone
    · rw [lookupS, if_neg hk] at hlook
      have hinj2 : ∀ k ∈ rest.map Prod.fst, k ≠ id →
          jsNumberOfString k ≠ jsNumberOfString id :=
        fun k hkm hne => hinj k (by simp [hkm]) hne
      have hk0ne : jsNumberOfString k0 ≠ jsNumberOfString id :=
        hinj k0 (by simp) hk
      by_cases hs : now - h0.timestamp * 1000 > HEARTBEAT_TIMEOUT
      · have htr : lookupS (eraseS risky k0) id = lookupS risky id :=
          lookupS_eraseS_other risky k0 id hk
        have ihr := ih (eraseS risky k0) hnodup2 hinj2 hlook
        rcases hrk : lookupS risky k0 with _ | e0 <;>
          simp only [monitorDeviceHeartbeats, hs, if_true, hrk, if_pos hs]
        · refine ⟨ihr.1, ihr.2.1, ?_, ?_, ?_⟩
          · simp [countInterventionsFor_append, ihr.2.2.1,
              countInterventionsFor_outOfService_ne _ _ _ hk0ne]
          · rintro ⟨e, he⟩
            have hmem := ihr.2.2.2.1 ⟨e, by rw [htr]; exact he⟩
            exact ⟨List.mem_append_right _ hmem.1, List.mem_append_right _ hmem.2⟩
          · intro hnone
            have hmem := ihr.2.2.2.2 (by rw [htr]; exact hnone)
            exact ⟨List.mem_append_right _ hmem.1, List.mem_append_right _ hmem.2⟩
        · refine ⟨ihr.1, ihr.2.1, ?_, ?_, ?_⟩
          · simp [countInterventionsFor_append, ihr.2.2.1,
              countInterventionsFor_defective_ne _ _ _ hk0ne]
          · rintro ⟨e, he⟩
            have hmem := ihr.2.2.2.1 ⟨e, by rw [htr]; exact he⟩
            exact ⟨List.mem_append_right _ hmem.1, List.mem_append_right _ hmem.2⟩
          · intro hnone
            have hmem := ihr.2.2.2.2 (by rw [htr]; exact hnone)
            exact ⟨List.mem_append_right _ hmem.1, List.mem_append_right _ hmem.2⟩
      · have ihr := ih risky hnodup2 hinj2 hlook
        simp only [monitorDeviceHeartbeats, hs, if_neg hs]
        refine ⟨?_, ihr.2.1, ihr.2.2.1, ihr.2.2.2.1, ihr.2.2.2.2⟩
        simp only [lookupS, hk, if_false, ite_false]
        exact ihr.1

/-- Witness for claim C6 at a one-device store with a risk verdict: the
staleness bound holds, the sweep drops the sample, creates exactly one
intervention for the device, and issues the defective status update. -/
theorem monitorDeviceHeartbeats_staleEscalation_witness :
    ((300001 : Int) - 0 * 1000 > HEARTBEAT_TIMEOUT)
    ∧ lookupS (monitorDeviceHeartbeats
        [("7", { status := "Actif",
                 metrics := { cpu_percent := 1, ram_used := 0, ram_total := 0,
                              ram_percent := 1, temperature := 1 },
                 timestamp := 0, device_id := "7", online := true })]
        [("7", { timestamp := 0, reason := "High temperature: 75°C" })]
        300001 (fun _ => false)).store "7" = none
    ∧ countInterventionsFor (monitorDeviceHeartbeats
        [("7", { status := "Actif",
                 metrics := { cpu_percent := 1, ram_used := 0, ram_total := 0,
                              ram_percent := 1, temperature := 1 },
                 timestamp := 0, device_id := "7", online := true })]
        [("7", { timestamp := 0, reason := "High temperature: 75°C" })]
        300001 (fun _ => false)).ops (jsNumberOfString "7") = 1
    ∧ DBOp.setStatus (jsNumberOfString "7") "defective"
        ∈ (monitorDeviceHeartbeats
        [("7", { status := "Actif",
                 metrics := { cpu_percent := 1, ram_used := 0, ram_total := 0,
                              ram_percent := 1, temperature := 1 },
                 timestamp := 0, device_id := "7", online := true })]
        [("7", { timestamp := 0, reason := "High temperature: 75°C" })]
        300001 (fun _ => false)).ops := by
  have h := monitorDeviceHeartbeats_staleEscalation
    [("7", { status := "Actif",
             metrics := { cpu_percent := 1, ram_used := 0, ram_total := 0,
                          ram_percent := 1, temperature := 1 },
             timestamp := 0, device_id := "7", online := true })]
    [("7", { timestamp := 0, reason := "High temperature: 75°C" })]
    300001 "7"
    { status := "Actif",
      metrics := { cpu_percent := 1, ram_used := 0, ram_total := 0,
                   ram_percent := 1, temperature := 1 },
      timestamp := 0, device_id := "7", online := true }
    (by decide) (by decide) (by decide) (by decide)
  exact ⟨by decide, h.1, h.2.2.1,
    (h.2.2.2.1 ⟨{ timestamp := 0, reason := "High temperature: 75°C" }, by decide⟩).1⟩

/-- Counterexample to claim C7 as stated: with the storage failure oracle
returning true for device 7, the status update throws, the intervention is
never created, and yet the sweep still removes device 7 from the heartbeat
store, because the deletes at deviceService.ts:344-345 run unconditionally
after un-awaited async calls. The claim says the entry remains. -/
theorem monitorDeviceHeartbeats_failureStillDeletes_cex :
    (monitorDeviceHeartbeats
        [("7", { status := "Actif",
                 metrics := { cpu_percent := 1, ram_used := 0, ram_total := 0,
                              ram_percent := 1, temperature := 1 },
                 timestamp := 0, device_id := "7", online := true })]
        [] 300001 (fun _ => true)).store = []
    ∧ (monitorDeviceHeartbeats
        [("7", { status := "Actif",
                 metrics := { cpu_percent := 1, ram_used := 0, ram_total := 0,
                              ram_percent := 1, temperature := 1 },
                 timestamp := 0, device_id := "7", online := true })]
        [] 300001 (fun _ => true)).ops
      = [DBOp.setStatus (some 7) "broken_down"] := by
  decide

/-- Claim C7 amended: a storage failure during the state transition does
not keep the device in the heartbeat store; the stale device and its
verdict are purged unconditionally, whatever the storage oracle reports,
because the monitor neither awaits nor catches the transition functions. -/
theorem monitorDeviceHeartbeats_unconditionalPurge
    (store : List (String × HeartbeatData)) (risky : List (String × RiskEntry))
    (now : Int) (id : String) (hb : HeartbeatData) (statusFails : String → Bool)
    (hnodup : (store.map Prod.fst).Nodup)
    (hlook : lookupS store id = some hb)
    (hstale : now - hb.timestamp * 1000 > HEARTBEAT_TIMEOUT) :
    lookupS (monitorDeviceHeartbeats store risky now statusFails).store id = none
    ∧ lookupS (monitorDeviceHeartbeats store risky now statusFails).risky id = none := by
  induction store generalizing risky with
  | nil => simp [lookupS] at hlook
  | cons p rest ih =>
    obtain ⟨k0, h0⟩ := p
    simp only [List.map_cons, List.nodup_cons] at hnodup
    obtain ⟨hk0notin, hnodup2⟩ := hnodup
    by_cases hk : k0 = id
    · subst hk
      rw [lookupS, if_pos rfl] at hlook
      have hbeq : h0 = hb := by injection hlook
      subst hbeq
      simp only [monitorDeviceHeartbeats, hstale, if_true, if_pos hstale]
      constructor
      · exact monitor_store_none _ _ _ _ _ (lookupS_eq_none_of_not_mem rest k0 hk0notin)
      · exact monitor_risky_none _ _ _ _ _ (lookupS_eraseS_self risky k0)
    · rw [lookupS, if_neg hk] at hlook
      by_cases hs : now - h0.timestamp * 1000 > HEARTBEAT_TIMEOUT
      · simp only [monitorDeviceHeartbeats, hs, if_true, if_pos hs]
        exact ih (eraseS risky k0) hnodup2 hlook
      · simp only [monitorDeviceHeartbeats, hs, if_neg hs]
        have ihr := ih risky hnodup2 hlook
        refine ⟨?_, ihr.2⟩
        simp only [lookupS, hk, if_false, ite_false]
        exact ihr.1

/-- Witness for the amended claim C7: device 9 is stored and stale, the
oracle makes every storage operation fail, and the device is nonetheless
gone from the store after the sweep. -/
theorem monitorDeviceHeartbeats_unconditionalPurge_witness :
    lookupS
        [("9", ({ status := "Actif",
                  metrics := { cpu_percent := 1, ram_used := 0, ram_total := 0,
                               ram_percent := 1, temperature := 1 },
                  timestamp := 0, device_id := "9", online := true } : HeartbeatData))]
        "9" = some
          { status := "Actif",
            metrics := { cpu_percent := 1, ram_used := 0, ram_total := 0,
                         ram_percent := 1, temperature := 1 },
            timestamp := 0, device_id := "9", online := true }
    ∧ lookupS (monitorDeviceHeartbeats
        [("9", { status := "Actif",
                 metrics := { cpu_percent := 1, ram_used := 0, ram_total := 0,
                              ram_percent := 1, temperature := 1 },
                 timestamp := 0, device_id := "9", online := true })]
        [] 400000 (fun _ => true)).store "9" = none := by
  have h := monitorDeviceHeartbeats_unconditionalPurge
    [("9", { status := "Actif",
             metrics := { cpu_percent := 1, ram_used := 0, ram_total := 0,
                          ram_percent := 1, temperature := 1 },
             timestamp := 0, device_id := "9", online := true })]
    [] 400000 "9"
    { status := "Actif",
      metrics := { cpu_percent := 1, ram_used := 0, ram_total := 0,
                   ram_percent := 1, temperature := 1 },
      timestamp := 0, device_id := "9", online := true }
    (fun _ => true) (by decide) (by decide) (by decide)
  exact ⟨by decide, h.1⟩

/-- Claim C1 evaluated at its failing input: two concurrent calls to the
same device share the response topic, and each per-call handler accepts the
first message on that topic regardless of which request it answers
(deviceService.ts:179). With the reply to the second command delivered
first, both calls resolve with that same body, so the first call does not
receive the reply corresponding to its own request. This matches the
failing expectation of the simultaneous-commands test in
deviceControlle.test.ts, which demands each call resolve its own reply. -/
theorem sendDeviceCommand_sharedTopicCrossTalk :
    resolvedOf (run
        (startCall (startCall emptyWorld "AA:BB:CC:DD:EE:FF") "AA:BB:CC:DD:EE:FF")
        [Event.deliver "deviceAABBCCDDEEFF/response" (Payload.parseable "reply-to-command2"),
         Event.deliver "deviceAABBCCDDEEFF/response" (Payload.parseable "reply-to-command1")]) 0
      = some (Resolved.ok "reply-to-command2")
    ∧ resolvedOf (run
        (startCall (startCall emptyWorld "AA:BB:CC:DD:EE:FF") "AA:BB:CC:DD:EE:FF")
        [Event.deliver "deviceAABBCCDDEEFF/response" (Payload.parseable "reply-to-command2"),
         Event.deliver "deviceAABBCCDDEEFF/response" (Payload.parseable "reply-to-command1")]) 1
      = some (Resolved.ok "reply-to-command2")
    ∧ resolvedOf (run
        (startCall (startCall emptyWorld "AA:BB:CC:DD:EE:FF") "AA:BB:CC:DD:EE:FF")
        [Event.deliver "deviceAABBCCDDEEFF/response" (Payload.parseable "reply-to-command2"),
         Event.deliver "deviceAABBCCDDEEFF/response" (Payload.parseable "reply-to-command1")]) 0
      ≠ some (Resolved.ok "reply-to-command1") := by
  decide

/-- Claim C2 evaluated at its failing input: a first message whose body is
not parseable as JSON makes JSON.parse throw inside the message handler
(deviceService.ts:182, no try/catch), after isHandled is set and the timer
is cleared but before cleanup and resolve run. The exception escapes the
handler, the promise never resolves, not even when the timer later fires,
and no cleanup or unsubscribe happens. The own test suite of the source
instead expects a resolved Failed-to-parse result value. -/
theorem sendDeviceCommand_malformedResponseThrows :
    ((run (startCall emptyWorld "AA:BB:CC:DD:EE:FF")
        [Event.deliver "deviceAABBCCDDEEFF/response" (Payload.malformed "invalid-json"),
         Event.timerFire 0]).calls.get? 0).map
      (fun c => (c.threw, c.resolvedWith, c.cleanupCount, c.unsubscribeCount))
      = some (true, none, 0, 0) := by
  decide

/-- Counterexample to claim C3 as stated: when the subscription fails, the
call does resolve with the Subscription-failed error result, but the
publish to the request topic has already been attempted, because the
publish at deviceService.ts:202 is issued unconditionally right after the
subscribe call, before the subscription outcome is known. The claim says no
publish is attempted. -/
theorem sendDeviceCommand_subscribeFailStillPublishes_cex :
    resolvedOf (run (startCall emptyWorld "AA:BB:CC:DD:EE:FF")
        [Event.subscribeResult 0 (some "Access denied")]) 0
      = some (Resolved.err "Subscription failed: Access denied")
    ∧ (run (startCall emptyWorld "AA:BB:CC:DD:EE:FF")
        [Event.subscribeResult 0 (some "Access denied")]).published
      = ["deviceAABBCCDDEEFF/request"] := by
  decide

/-- Claim C3 amended: when subscribing to the response topic fails, the
call resolves with the Subscription-failed error result, but the publish to
the request topic is attempted unconditionally, before the subscription
outcome is known. -/
theorem sendDeviceCommand_subscribeFail (mac e : String) :
    resolvedOf (run (startCall emptyWorld mac) [Event.subscribeResult 0 (some e)]) 0
      = some (Resolved.err ("Subscription failed: " ++ e))
    ∧ (run (startCall emptyWorld mac) [Event.subscribeResult 0 (some e)]).published
      = [requestTopicOf mac] := by
  exact ⟨rfl, rfl⟩

/-- Counterexample to claim C4 as stated: on timeout the call resolves with
the message ODB is not activated or not responding, not with the message
device not responding, and no clearTimeout is ever issued on this branch
(clearTimeout appears only in the message branch at deviceService.ts:181,
and cleanup never touches the timer). -/
theorem sendDeviceCommand_timeoutMessage_cex :
    resolvedOf (run (startCall emptyWorld "AA:BB:CC:DD:EE:FF") [Event.timerFire 0]) 0
      = some (Resolved.err "ODB is not activated or not responding")
    ∧ resolvedOf (run (startCall emptyWorld "AA:BB:CC:DD:EE:FF") [Event.timerFire 0]) 0
      ≠ some (Resolved.err "device not responding")
    ∧ ((run (startCall emptyWorld "AA:BB:CC:DD:EE:FF") [Event.timerFire 0]).calls.get? 0).map
        (fun c => c.clearTimeoutCount) = some 0 := by
  decide

/-- Claim C4 amended: when no message arrives on the response topic before
the timer fires, the call resolves with the error result whose message is
ODB is not activated or not responding, and the teardown consisting of the
listener removal and the unsubscribe runs exactly once; the timer is not
cancelled on this branch, since clearTimeout is only called in the message
branch. -/
theorem sendDeviceCommand_timeoutBehavior (mac t : String) (p : Payload)
    (h : t ≠ responseTopicOf mac) :
    ((run (startCall emptyWorld mac)
        [Event.deliver t p, Event.timerFire 0]).calls.get? 0).map
      (fun c => (c.resolvedWith, c.cleanupCount, c.unsubscribeCount,
                 c.clearTimeoutCount, c.listenerRegistered))
      = some (some (Resolved.err "ODB is not activated or not responding"),
              1, 1, 0, false) := by
  simp [run, step, startCall, emptyWorld, deliverCalls, messageHandlerCall, h,
    updateAt, timerCb, cleanupCall, resolveCall]

/-- Witness for the amended claim C4 at a concrete call: a message on an
unrelated topic does not resolve the call, the timer fires, and the call
resolves with the ODB timeout message after exactly one cleanup. -/
theorem sendDeviceCommand_timeoutBehavior_witness :
    (("other/topic" : String) ≠ responseTopicOf "AA:BB:CC:DD:EE:FF")
    ∧ ((run (startCall emptyWorld "AA:BB:CC:DD:EE:FF")
        [Event.deliver "other/topic" (Payload.parseable "x"), Event.timerFire 0]).calls.get? 0).map
      (fun c => (c.resolvedWith, c.cleanupCount, c.unsubscribeCount,
                 c.clearTimeoutCount, c.listenerRegistered))
      = some (some (Resolved.err "ODB is not activated or not responding"),
              1, 1, 0, false) :=
  ⟨by decide, sendDeviceCommand_timeoutBehavior "AA:BB:CC:DD:EE:FF" "other/topic"
    (Payload.parseable "x") (by decide)⟩

-- Resolution stickiness: once a call has resolved, no later event can
-- change the value it resolved with.

theorem resolvedWith_subscribeCb (c : CallState) (err : Option String) (r : Resolved)
    (h : c.resolvedWith = some r) : (subscribeCb c err).resolvedWith = some r := by
  cases err <;> simp [subscribeCb, resolveCall, cleanupCall, h]

theorem resolvedWith_publishCb (c : CallState) (err : Option String) (r : Resolved)
    (h : c.resolvedWith = some r) : (publishCb c err).resolvedWith = some r := by
  cases err <;> simp [publishCb, resolveCall, cleanupCall, h]

theorem resolvedWith_timerCb (c : CallState) (r : Resolved)
    (h : c.resolvedWith = some r) : (timerCb c).resolvedWith = some r := by
  by_cases ht : c.timerArmed <;> by_cases hh : c.isHandled <;>
    simp [timerCb, ht, hh, resolveCall, cleanupCall, h]

theorem resolvedWith_messageHandlerCall (c : CallState) (t : String) (p : Payload)
    (r : Resolved) (h : c.resolvedWith = some r) :
    (messageHandlerCall c t p).1.resolvedWith = some r := by
  rw [messageHandlerCall]
  split
  · cases p <;> simp [resolveCall, cleanupCall, h]
  · simpa using h

theorem updateAt_get (l : List CallState) (i : Nat) (f : CallState → CallState)
    (j : Nat) :
    (updateAt l i f).get? j = if i = j then (l.get? j).map f else l.get? j := by
  induction l generalizing i j with
  | nil =>
    cases i <;> cases j <;> simp [updateAt]
  | cons c rest ih =>
    cases i with
    | zero => cases j <;> simp [updateAt]
    | succ i2 =>
      cases j with
      | zero => simp [updateAt]
      | succ j2 => simpa [updateAt] using ih i2 j2

theorem deliverCalls_sticky (l : List CallState) (t : String) (p : Payload)
    (i : Nat) (c : CallState) (r : Resolved)
    (hg : l.get? i = some c) (h : c.resolvedWith = some r) :
    ∃ c2, (deliverCalls l t p).get? i = some c2 ∧ c2.resolvedWith = some r := by
  induction l generalizing i with
  | nil => simp at hg
  | cons c0 rest ih =>
    cases i with
    | zero =>
      simp only [List.get?_cons_zero, Option.some.injEq] at hg
      subst hg
      by_cases hreg : c0.listenerRegistered
      · rcases hm : messageHandlerCall c0 t p with ⟨c1, b⟩
        have h1 : c1.resolvedWith = some r := by
          have h2 := resolvedWith_messageHandlerCall c0 t p r h
          rw [hm] at h2
          exact h2
        refine ⟨c1, ?_, h1⟩
        cases b <;>
          simp only [deliverCalls, hreg, if_true, hm, List.get?_cons_zero]
      · refine ⟨c0, ?_, h⟩
        simp only [deliverCalls, hreg, if_false, Bool.false_eq_true, ite_false,
          List.get?_cons_zero]
    | succ i2 =>
      simp only [List.get?_cons_succ] at hg
      by_cases hreg : c0.listenerRegistered
      · rcases hm : messageHandlerCall c0 t p with ⟨c1, b⟩
        cases b
        · obtain ⟨c2, hc2, hr2⟩ := ih i2 hg
          refine ⟨c2, ?_, hr2⟩
          simp only [deliverCalls, hreg, if_true, hm, List.get?_cons_succ]
          exact hc2
        · refine ⟨c, ?_, h⟩
          simp only [deliverCalls, hreg, if_true, hm, List.get?_cons_succ]
          exact hg
      · obtain ⟨c2, hc2, hr2⟩ := ih i2 hg
        refine ⟨c2, ?_, hr2⟩
        simp only [deliverCalls, hreg, if_false, Bool.false_eq_true, ite_false,
          List.get?_cons_succ]
        exact hc2

theorem step_sticky (w : World) (e : Event) (i : Nat) (r : Resolved)
    (h : resolvedOf w i = some r) : resolvedOf (step w e) i = some r := by
  obtain ⟨c, hc, hr⟩ : ∃ c, w.calls.get? i = some c ∧ c.resolvedWith = some r := by
    rcases hg : w.calls.get? i with _ | c
    · rw [resolvedOf, hg] at h
      exact Option.noConfusion h
    · rw [resolvedOf, hg] at h
      exact ⟨c, rfl, h⟩
  have hce : w.calls[i]? = some c := by simpa using hc
  cases e with
  | subscribeResult j err =>
    rw [resolvedOf]
    simp only [step, updateAt_get]
    by_cases hji : j = i
    · simp [hji, hce, resolvedWith_subscribeCb c err r hr]
    · simp [hji, hce, hr]
  | publishResult j err =>
    rw [resolvedOf]
    simp only [step, updateAt_get]
    by_cases hji : j = i
    · simp [hji, hce, resolvedWith_publishCb c err r hr]
    · simp [hji, hce, hr]
  | timerFire j =>
    rw [resolvedOf]
    simp only [step, updateAt_get]
    by_cases hji : j = i
    · simp [hji, hce, resolvedWith_timerCb c r hr]
    · simp [hji, hce, hr]
  | deliver t p =>
    obtain ⟨c2, hc2, hr2⟩ := deliverCalls_sticky w.calls t p i c r hc hr
    have hc2e : (deliverCalls w.calls t p)[i]? = some c2 := by simpa using hc2
    rw [resolvedOf]
    simp [step, hc2e, hr2]

theorem run_sticky (w : World) (es : List Event) (i : Nat) (r : Resolved)
    (h : resolvedOf w i = some r) : resolvedOf (run w es) i = some r := by
  induction es generalizing w with
  | nil => exact h
  | cons e rest ih =>
    exact ih (step w e) (step_sticky w e i r h)

/-- Claim C5: only the first event among a response-topic message and the
timeout resolves a call. First part: with two messages delivered on the
response topic, the call resolves with the body of the first delivered
message. Second part: once a call has resolved with a value, no sequence of
later events, message deliveries included, changes that value. -/
theorem sendDeviceCommand_firstEventWins :
    (∀ (mac b1 : String) (p2 : Payload),
      resolvedOf (run (startCall emptyWorld mac)
        [Event.deliver (responseTopicOf mac) (Payload.parseable b1),
         Event.deliver (responseTopicOf mac) p2]) 0
        = some (Resolved.ok b1))
    ∧ (∀ (w : World) (es : List Event) (i : Nat) (r : Resolved),
        resolvedOf w i = some r → resolvedOf (run w es) i = some r) := by
  constructor
  · intro mac b1 p2
    simp [run, step, startCall, emptyWorld, deliverCalls, messageHandlerCall,
      resolveCall, cleanupCall, resolvedOf]
  · exact run_sticky

/-- Witness for claim C5: a world holding one already-resolved call whose
listener is still registered; a further message on its own response topic
leaves the resolved value unchanged. -/
theorem sendDeviceCommand_firstEventWins_witness :
    resolvedOf
        { calls := [{ requestTopic := "deviceAB/request",
                      responseTopic := "deviceAB/response",
                      isHandled := true,
                      resolvedWith := some (Resolved.ok "first"),
                      listenerRegistered := true, timerArmed := false,
                      cleanupCount := 1, unsubscribeCount := 1,
                      clearTimeoutCount := 1, threw := false }],
          published := ["deviceAB/request"] } 0 = some (Resolved.ok "first")
    ∧ resolvedOf (run
        { calls := [{ requestTopic := "deviceAB/request",
                      responseTopic := "deviceAB/response",
                      isHandled := true,
                      resolvedWith := some (Resolved.ok "first"),
                      listenerRegistered := true, timerArmed := false,
                      cleanupCount := 1, unsubscribeCount := 1,
                      clearTimeoutCount := 1, threw := false }],
          published := ["deviceAB/request"] }
        [Event.deliver "deviceAB/response" (Payload.parseable "second")]) 0
      = some (Resolved.ok "first") :=
  ⟨by decide, sendDeviceCommand_firstEventWins.2
    { calls := [{ requestTopic := "deviceAB/request",
                  responseTopic := "deviceAB/response",
                  isHandled := true,
                  resolvedWith := some (Resolved.ok "first"),
                  listenerRegistered := true, timerArmed := false,
                  cleanupCount := 1, unsubscribeCount := 1,
                  clearTimeoutCount := 1, threw := false }],
      published := ["deviceAB/request"] }
    [Event.deliver "deviceAB/response" (Payload.parseable "second")] 0
    (Resolved.ok "first") (by decide)⟩
